import Mathlib

/-!
# Verification of the animation-context lifecycle protocol

Shallow embedding of the GSAP / Astro View Transitions lifecycle pattern
(the `initAnimations` routine and the `astro:before-swap` handler of the
repository's required component pattern), together with the brand
configuration data module.

The module-scoped `let ctx: gsap.Context | null` variable becomes the `ctx`
field of `CoordState`.  Handles produced by `gsap.context(...)` are modelled
as fresh natural-number identifiers.  For the testable properties the state
additionally records, as pure instrumentation, which handle ids were ever
opened, which were reverted, how many open and revert calls were made, and
the chronological (newest-first) trace of registry calls.
-/

/-- A call made by the coordinator into the animation registry: opening a
scope (`gsap.context(...)`) or reverting one (`ctx.revert()`). -/
inductive RegCall where
  | openCall (h : Nat)
  | revertCall (h : Nat)
  deriving Repr, DecidableEq

/-- Is a registry call an open-scope call? -/
def RegCall.isOpen : RegCall → Bool
  | RegCall.openCall _ => true
  | RegCall.revertCall _ => false

/-- The module-scoped state of one region's coordinator.  `ctx` is the
lifecycle slot (`let ctx: gsap.Context | null = null`); `nextId` supplies
fresh handle identifiers; the remaining fields are instrumentation recording
what the black-box registry was asked to do. -/
structure CoordState where
  ctx : Option Nat
  nextId : Nat
  openedIds : List Nat
  revertedIds : List Nat
  openCalls : Nat
  revertCalls : Nat
  trace : List RegCall
  deriving Repr, DecidableEq

/-- The state at module load: empty slot, nothing opened or reverted. -/
def CoordState.init : CoordState :=
  { ctx := none, nextId := 0, openedIds := [], revertedIds := [],
    openCalls := 0, revertCalls := 0, trace := [] }

/-- The cleanup block `if (ctx) { ctx.revert(); ctx = null; }` that appears
verbatim both at the start of `initAnimations` and in the
`astro:before-swap` listener. -/
def revertAndClear (s : CoordState) : CoordState :=
  match s.ctx with
  | some h =>
      { s with ctx := none,
               revertedIds := h :: s.revertedIds,
               revertCalls := s.revertCalls + 1,
               trace := RegCall.revertCall h :: s.trace }
  | none => s

/-- The call `ctx = gsap.context(() => { ... }, section)`: ask the registry
for a fresh scope handle and store it in the slot. -/
def openScope (s : CoordState) : CoordState :=
  { s with ctx := some s.nextId,
           nextId := s.nextId + 1,
           openedIds := s.nextId :: s.openedIds,
           openCalls := s.openCalls + 1,
           trace := RegCall.openCall s.nextId :: s.trace }

/-- The body of `function initAnimations()`: clean up the previous context
first, then resolve the region root (`document.querySelector`); bail if it
is absent, otherwise open a new scope.  `rootPresent` is the outcome of the
root resolution on the current page. -/
def initAnimations (rootPresent : Bool) (s : CoordState) : CoordState :=
  let s1 := revertAndClear s
  if rootPresent then openScope s1 else s1

/-- The `astro:before-swap` listener: revert and clear unconditionally
(guarded by the null check inside `revertAndClear`). -/
def beforeSwapHandler (s : CoordState) : CoordState :=
  revertAndClear s

/-- The two navigation signals the coordinator subscribes to.
`pageLoad` is `astro:page-load` (navigation-complete), carrying the
region-resolution outcome of the freshly rendered page; `beforeSwap` is
`astro:before-swap` (navigation-about-to-start). -/
inductive Signal where
  | pageLoad (rootPresent : Bool)
  | beforeSwap
  deriving Repr, DecidableEq

/-- Dispatch one navigation signal to its handler. -/
def step (s : CoordState) : Signal → CoordState
  | Signal.pageLoad r => initAnimations r s
  | Signal.beforeSwap => beforeSwapHandler s

/-- Process a finite signal sequence starting from the module-load state. -/
def run (sigs : List Signal) : CoordState :=
  sigs.foldl step CoordState.init

/-- The handles that are live: opened at some point and never reverted. -/
def live (s : CoordState) : List Nat :=
  s.openedIds.filter (fun h => decide (¬ h ∈ s.revertedIds))

/-- Number of live (non-reverted) handles held for the region. -/
def liveCount (s : CoordState) : Nat :=
  (live s).length

/-- Whether the most recent registry call was an open. -/
def headIsOpen : List RegCall → Bool
  | [] => false
  | e :: _ => e.isOpen

/-- A newest-first call trace never shows two open-scope calls adjacent to
each other (no second open without an intervening revert: the only calls
are opens and reverts). -/
def noDoubleOpen : List RegCall → Bool
  | [] => true
  | [_] => true
  | a :: b :: rest => (!(a.isOpen && b.isOpen)) && noDoubleOpen (b :: rest)

/-- Possible outcomes of the two external calls inside `initAnimations`
that the coordinator does not control: the root lookup
(`document.querySelector`) may throw or report the root absent, and the
subsequent `gsap.context(...)` open may throw. -/
inductive NavOutcome where
  | lookupThrows
  | rootAbsent
  | openThrows
  | ok
  deriving Repr, DecidableEq

/-- `initAnimations` with the external calls allowed to throw.  Returns the
module state observable after the handler terminates (normally or because
the exception escaped) together with a flag telling whether an exception
escaped.  The cleanup block has already run — and in particular has set
`ctx = null` — before either external call is attempted. -/
def initAnimationsE (o : NavOutcome) (s : CoordState) : CoordState × Bool :=
  let s1 := revertAndClear s
  match o with
  | NavOutcome.lookupThrows => (s1, true)
  | NavOutcome.rootAbsent => (s1, false)
  | NavOutcome.openThrows => (s1, true)
  | NavOutcome.ok => (openScope s1, false)

/-- Modelled from the spec: the repository's component styling (`.astro`
files with their CSS) is not among the sources under review, so the
Visibility Fallback Contract is modelled from the spec's words.  A region's
presentation is its static styling (`staticHidden`: whether any static rule
hides the content) together with, for each scope handle, whether an effect
registration recorded inside that scope set a hidden-until-animated initial
state. -/
structure RegionPresentation where
  staticHidden : Bool
  hides : Nat → Bool

/-- Modelled from the spec: a region conforms to the Progressive
Enhancement Rules when no static presentation rule hides its content —
every hidden-until-animated state is established only inside an open
scope. -/
def conforming (p : RegionPresentation) : Prop :=
  p.staticHidden = false

/-- Modelled from the spec: is the region's content visible under
coordinator state `s`?  Content is visible unless static styling hides it
or a live (opened and non-reverted) scope applied a hide mutation;
reverting a scope removes its mutations. -/
def visibleUnder (p : RegionPresentation) (s : CoordState) : Bool :=
  !p.staticHidden && !((live s).any p.hides)

/-- The brand identity record type of src/src/brands/types.ts.  Optional
TypeScript fields become `Option`; the floating-point latitude/longitude
literals are embedded as exact rationals. -/
structure BrandConfig where
  id : String
  name : String
  schemaName : Option String
  domain : Option String
  logoPath : String
  logoPathWhite : Option String
  primaryColor : String
  accentColor : String
  phone : String
  email : String
  address : String
  cityLabel : String
  googleMapsUrl : Option String
  gaId : Option String
  metaPixelId : Option String
  latitude : Option Rat
  longitude : Option Rat
  streetAddress : Option String
  addressLocality : Option String
  addressRegion : Option String
  postalCode : Option String
  ratingValue : Option String
  reviewCount : Option String
  shopImage : Option String
  deriving Repr, DecidableEq

/-- First exported record of src/src/brands/mobile-tires.ts
(Queens Auto Service variant). -/
def mobileTiresBrand : BrandConfig :=
  { id := "mobile-tires"
    name := "Queens Auto Service"
    schemaName := some "Queens Auto Services Elgin"
    domain := some "queensautoserviceselgin.com"
    logoPath := "/images/logos/site logos/New-Logo.webp"
    logoPathWhite := some "/images/logos/site logos/Logo-White.webp"
    primaryColor := "#0b1121"
    accentColor := "#0e79c9"
    phone := "(224) 635-3000"
    email := "info@queensautoserviceselgin.com"
    address := "1303 Dundee Ave, Elgin, IL 60120"
    cityLabel := "Professional Auto Service – Elgin, IL"
    googleMapsUrl :=
      some "https://www.google.com/maps/search/?api=1&query=1303+Dundee+Ave+Elgin+IL+60120"
    gaId := none
    metaPixelId := none
    latitude := some (420615014 / 10000000 : Rat)
    longitude := some (-882652443 / 10000000 : Rat)
    streetAddress := some "1303 Dundee Ave"
    addressLocality := some "Elgin"
    addressRegion := some "IL"
    postalCode := some "60120"
    ratingValue := some "4.5"
    reviewCount := some "147"
    shopImage := some "/images/shop/Queens-Auto-Services-Elgin-a-view-from-outside.webp" }

/-- Second exported record variant of src/src/brands/mobile-tires.ts
(Queens Mobile Tires variant; the source file carries both records under
the same `mobileTiresBrand` name, so the second gets the suffix `V2`
here).  All omitted optional fields are `none`/`undefined`. -/
def mobileTiresBrandV2 : BrandConfig :=
  { id := "mobile-tires"
    name := "Queens Mobile Tires"
    schemaName := none
    domain := some "queensmobiletires.com"
    logoPath := "/images/logos/site logos/New-Logo.webp"
    logoPathWhite := some "/images/logos/site logos/Logo-White.webp"
    primaryColor := "#0b1121"
    accentColor := "#0e79c9"
    phone := "(847) 925-1100"
    email := "info@queensmobiletires.com"
    address := "Everywhere"
    cityLabel := "Mobile Tire Service â€“ Chicagoland"
    googleMapsUrl :=
      some "https://maps.google.com/?q=2401+E+Algonquin+Rd,+Lake+in+the+Hills,+IL+60102"
    gaId := none
    metaPixelId := none
    latitude := none
    longitude := none
    streetAddress := none
    addressLocality := none
    addressRegion := none
    postalCode := none
    ratingValue := none
    reviewCount := none
    shopImage := none }

/-- Following the spec's words (for comparison with the records above): a
brand identity record supplies name, contact info (phone, email, address),
geo-coordinates (latitude and longitude), and schema metadata (the exact
schema name). -/
def suppliesIdentityFields (b : BrandConfig) : Bool :=
  !b.name.isEmpty && !b.phone.isEmpty && !b.email.isEmpty && !b.address.isEmpty &&
    b.latitude.isSome && b.longitude.isSome && b.schemaName.isSome

/-- A region whose static presentation hides nothing (every hide mutation is
issued inside scopes), used as a concrete conforming region. -/
def allVisibleRegion : RegionPresentation :=
  { staticHidden := false, hides := fun _ => true }

/-! ## Reachability invariant of the coordinator state -/

/-- Invariant maintained by the coordinator across all signal handling:
handle ids are allocated below `nextId`, no id is opened twice, the slot
holds an opened non-reverted handle when full, every opened handle is
either the slot's current one or reverted, and the newest trace entry is an
open exactly when the slot is full, with no two adjacent opens anywhere in
the trace. -/
structure CoordInv (s : CoordState) : Prop where
  opened_lt : ∀ h ∈ s.openedIds, h < s.nextId
  reverted_lt : ∀ h ∈ s.revertedIds, h < s.nextId
  opened_nodup : s.openedIds.Nodup
  ctx_live : ∀ h, s.ctx = some h → h ∈ s.openedIds ∧ h ∉ s.revertedIds
  opened_cases : ∀ h ∈ s.openedIds, s.ctx = some h ∨ h ∈ s.revertedIds
  trace_head : headIsOpen s.trace = s.ctx.isSome
  no_double : noDoubleOpen s.trace = true

theorem CoordInv_init : CoordInv CoordState.init := by
  refine ⟨?_, ?_, ?_, ?_, ?_, ?_, ?_⟩ <;>
    simp [CoordState.init, headIsOpen, noDoubleOpen]

theorem revertAndClear_ctx (s : CoordState) : (revertAndClear s).ctx = none := by
  cases h : s.ctx <;> simp [revertAndClear, h]

theorem revertAndClear_of_none {s : CoordState} (h : s.ctx = none) :
    revertAndClear s = s := by
  simp [revertAndClear, h]

theorem revertAndClear_idem (s : CoordState) :
    revertAndClear (revertAndClear s) = revertAndClear s :=
  revertAndClear_of_none (revertAndClear_ctx s)

theorem noDoubleOpen_cons_revert (h : Nat) (t : List RegCall) :
    noDoubleOpen (RegCall.revertCall h :: t) = noDoubleOpen t := by
  cases t <;> simp [noDoubleOpen, RegCall.isOpen]

theorem noDoubleOpen_cons_open {t : List RegCall} (h : Nat)
    (ht : headIsOpen t = false) :
    noDoubleOpen (RegCall.openCall h :: t) = noDoubleOpen t := by
  cases t with
  | nil => simp [noDoubleOpen]
  | cons e rest => simp [noDoubleOpen, RegCall.isOpen, headIsOpen] at ht ⊢; simp [ht]

theorem CoordInv_revertAndClear {s : CoordState} (hI : CoordInv s) :
    CoordInv (revertAndClear s) := by
  cases hc : s.ctx with
  | none => rw [revertAndClear_of_none hc]; exact hI
  | some c =>
      have hcmem := hI.ctx_live c hc
      simp only [revertAndClear, hc]
      refine ⟨?_, ?_, ?_, ?_, ?_, ?_, ?_⟩
      · intro h hm
        exact hI.opened_lt h hm
      · intro h hm
        simp only [List.mem_cons] at hm
        rcases hm with rfl | hm
        · exact hI.opened_lt h hcmem.1
        · exact hI.reverted_lt h hm
      · exact hI.opened_nodup
      · intro h hm
        simp at hm
      · intro h hm
        rcases hI.opened_cases h hm with h1 | h1
        · rw [hc] at h1
          exact Or.inr (by simp [Option.some_inj.mp h1])
        · exact Or.inr (List.mem_cons_of_mem _ h1)
      · simp [headIsOpen, RegCall.isOpen]
      · simpa [noDoubleOpen_cons_revert] using hI.no_double

theorem CoordInv_openScope {s : CoordState} (hI : CoordInv s)
    (hc : s.ctx = none) : CoordInv (openScope s) := by
  have hhead : headIsOpen s.trace = false := by
    simpa [hc] using hI.trace_head
  refine ⟨?_, ?_, ?_, ?_, ?_, ?_, ?_⟩
  · intro h hm
    simp only [openScope, List.mem_cons] at hm ⊢
    rcases hm with rfl | hm
    · exact Nat.lt_succ_self _
    · exact Nat.lt_succ_of_lt (hI.opened_lt h hm)
  · intro h hm
    simp only [openScope] at hm ⊢
    exact Nat.lt_succ_of_lt (hI.reverted_lt h hm)
  · simp only [openScope, List.nodup_cons]
    exact ⟨fun hmem => absurd (hI.opened_lt _ hmem) (Nat.lt_irrefl _),
      hI.opened_nodup⟩
  · intro h hm
    simp only [openScope, Option.some_inj] at hm
    subst hm
    refine ⟨List.mem_cons_self _ _, fun hmem => ?_⟩
    exact absurd (hI.reverted_lt _ hmem) (Nat.lt_irrefl _)
  · intro h hm
    simp only [openScope, List.mem_cons] at hm ⊢
    rcases hm with rfl | hm
    · exact Or.inl rfl
    · rcases hI.opened_cases h hm with h1 | h1
      · rw [hc] at h1; cases h1
      · exact Or.inr h1
  · simp [openScope, headIsOpen, RegCall.isOpen]
  · simpa [openScope, noDoubleOpen_cons_open _ hhead] using hI.no_double

theorem CoordInv_initAnimations {s : CoordState} (hI : CoordInv s)
    (r : Bool) : CoordInv (initAnimations r s) := by
  cases r with
  | false => simpa [initAnimations] using CoordInv_revertAndClear hI
  | true =>
      simpa [initAnimations] using
        CoordInv_openScope (CoordInv_revertAndClear hI) (revertAndClear_ctx s)

theorem CoordInv_step {s : CoordState} (hI : CoordInv s) (a : Signal) :
    CoordInv (step s a) := by
  cases a with
  | pageLoad r => exact CoordInv_initAnimations hI r
  | beforeSwap => exact CoordInv_revertAndClear hI

theorem CoordInv_foldl (sigs : List Signal) {s : CoordState}
    (hI : CoordInv s) : CoordInv (sigs.foldl step s) := by
  induction sigs generalizing s with
  | nil => exact hI
  | cons a t ih => exact ih (CoordInv_step hI a)

theorem CoordInv_run (sigs : List Signal) : CoordInv (run sigs) :=
  CoordInv_foldl sigs CoordInv_init

/-! ## Live-handle counting -/

theorem length_le_one_of_nodup_const {l : List Nat} {c : Nat}
    (hn : l.Nodup) (hc : ∀ x ∈ l, x = c) : l.length ≤ 1 := by
  match l with
  | [] => simp
  | [a] => simp
  | a :: b :: t =>
      exfalso
      have ha : a = c := hc a (by simp)
      have hb : b = c := hc b (by simp)
      have := (List.nodup_cons.mp hn).1
      exact this (by simp [ha, hb])

theorem live_eq_nil_of_ctx_none {s : CoordState} (hI : CoordInv s)
    (hc : s.ctx = none) : live s = [] := by
  rw [live, List.filter_eq_nil_iff]
  intro a ha
  rcases hI.opened_cases a ha with h1 | h1
  · rw [hc] at h1; cases h1
  · simp [h1]

theorem liveCount_le_one {s : CoordState} (hI : CoordInv s) :
    liveCount s ≤ 1 := by
  cases hc : s.ctx with
  | none => simp [liveCount, live_eq_nil_of_ctx_none hI hc]
  | some c =>
      have hnd : (live s).Nodup := hI.opened_nodup.filter _
      have hall : ∀ x ∈ live s, x = c := by
        intro x hx
        have hmem := List.mem_filter.mp hx
        have hnr : x ∉ s.revertedIds := by
          have := hmem.2
          simpa using this
        rcases hI.opened_cases x hmem.1 with h1 | h1
        · rw [hc] at h1
          exact (Option.some_inj.mp h1).symm
        · exact absurd h1 hnr
      exact length_le_one_of_nodup_const hnd hall

theorem live_openScope {s : CoordState} (hI : CoordInv s)
    (hc : s.ctx = none) : live (openScope s) = [s.nextId] := by
  have h1 : live s = [] := live_eq_nil_of_ctx_none hI hc
  rw [live] at h1
  have hfresh : s.nextId ∉ s.revertedIds := fun hmem =>
    absurd (hI.reverted_lt _ hmem) (Nat.lt_irrefl _)
  rw [live, openScope]
  simp only [List.filter_cons]
  rw [if_pos (by simpa using hfresh), h1]

theorem liveCount_initAnimations_true {s : CoordState} (hI : CoordInv s) :
    liveCount (initAnimations true s) = 1 := by
  have hI1 := CoordInv_revertAndClear hI
  have hc1 := revertAndClear_ctx s
  simp [initAnimations, liveCount, live_openScope hI1 hc1]

/-! ## Projection lemmas for the handlers -/

theorem revertAndClear_nextId (s : CoordState) :
    (revertAndClear s).nextId = s.nextId := by
  cases h : s.ctx <;> simp [revertAndClear, h]

theorem revertAndClear_openCalls (s : CoordState) :
    (revertAndClear s).openCalls = s.openCalls := by
  cases h : s.ctx <;> simp [revertAndClear, h]

theorem revertAndClear_openedIds (s : CoordState) :
    (revertAndClear s).openedIds = s.openedIds := by
  cases h : s.ctx <;> simp [revertAndClear, h]

theorem initAnimations_revertedIds (r : Bool) (s : CoordState) :
    (initAnimations r s).revertedIds = (revertAndClear s).revertedIds := by
  cases r <;> simp [initAnimations, openScope]

theorem ctx_mem_reverted {s : CoordState} {c : Nat} (hc : s.ctx = some c)
    (r : Bool) : c ∈ (initAnimations r s).revertedIds := by
  rw [initAnimations_revertedIds]
  simp [revertAndClear, hc]

theorem initAnimations_ctx_isSome (r : Bool) (s : CoordState) :
    (initAnimations r s).ctx.isSome = r := by
  cases r
  · simp [initAnimations, revertAndClear_ctx]
  · simp [initAnimations, openScope]

/-! ## Claim theorems -/

/-- C1: for every region and every finite sequence of navigation-complete
and navigation-about-to-start signals, with any region-resolution outcome at
each step, the coordinator ends holding 0 or 1 live (non-reverted) scope
handles for that region, never more.  Each region has its own module-scoped
slot and handlers, so one region's coordinator is modelled; signals carry
the per-step resolution outcome. -/
theorem at_most_one_scope (sigs : List Signal) : liveCount (run sigs) ≤ 1 :=
  liveCount_le_one (CoordInv_run sigs)

/-- C2: on a navigation-complete signal the coordinator first reverts and
clears any live scope (the cleanup leaves the slot empty), then resolves
the region root: if absent it stops with the slot empty (IDLE) having
opened nothing, otherwise it opens exactly one new scope, stores its fresh
handle in the slot, and ends ACTIVE. -/
theorem navComplete_transition (s : CoordState) (r : Bool) :
    (revertAndClear s).ctx = none ∧
    (∀ h, s.ctx = some h → h ∈ (initAnimations r s).revertedIds) ∧
    (r = false → initAnimations r s = revertAndClear s ∧
      (initAnimations r s).ctx = none ∧
      (initAnimations r s).openCalls = s.openCalls) ∧
    (r = true → (initAnimations r s).ctx = some s.nextId ∧
      (initAnimations r s).openCalls = s.openCalls + 1 ∧
      (initAnimations r s).nextId = s.nextId + 1) := by
  refine ⟨revertAndClear_ctx s, fun h hc => ctx_mem_reverted hc r, ?_, ?_⟩
  · rintro rfl
    exact ⟨rfl, revertAndClear_ctx s, revertAndClear_openCalls s⟩
  · rintro rfl
    refine ⟨?_, ?_, ?_⟩
    · show (openScope (revertAndClear s)).ctx = some s.nextId
      simp [openScope, revertAndClear_nextId]
    · show (openScope (revertAndClear s)).openCalls = s.openCalls + 1
      simp [openScope, revertAndClear_openCalls]
    · show (openScope (revertAndClear s)).nextId = s.nextId + 1
      simp [openScope, revertAndClear_nextId]

/-- Witness for C2: after one page load the slot holds handle 0; a second
navigation-complete with the root present reverts handle 0, opens the fresh
handle 1 and counts a second open call. -/
theorem navComplete_transition_witness :
    (revertAndClear (run [Signal.pageLoad true])).ctx = none ∧
    0 ∈ (initAnimations true (run [Signal.pageLoad true])).revertedIds ∧
    (initAnimations true (run [Signal.pageLoad true])).ctx = some 1 ∧
    (initAnimations true (run [Signal.pageLoad true])).openCalls = 2 := by
  obtain ⟨h1, h2, _, h4⟩ := navComplete_transition (run [Signal.pageLoad true]) true
  obtain ⟨h5, h6, _⟩ := h4 rfl
  refine ⟨h1, h2 0 (by decide), ?_, ?_⟩
  · rw [h5]; rfl
  · rw [h6]; rfl

/-- C3 counterexample: the claimed count of two revert calls is wrong.  On
the sequence complete, about-to-start, complete with the root resolving on
both pages, the guarded cleanup (`if (ctx)`) skips the revert on both
complete signals (the slot is empty there), so exactly one revert call
occurs, falsifying the claimed conjunction. -/
theorem away_and_back_claim_counterexample :
    ¬ (liveCount (run [Signal.pageLoad true, Signal.beforeSwap, Signal.pageLoad true]) = 1 ∧
       (run [Signal.pageLoad true, Signal.beforeSwap, Signal.pageLoad true]).revertCalls = 2 ∧
       (run [Signal.pageLoad true, Signal.beforeSwap, Signal.pageLoad true]).openCalls = 2) := by
  decide

/-- C3 amended: the sequence complete, about-to-start, complete with the
root resolving on both pages ends with exactly one live handle, after
exactly one revert call and exactly two open calls. -/
theorem away_and_back_counts :
    liveCount (run [Signal.pageLoad true, Signal.beforeSwap, Signal.pageLoad true]) = 1 ∧
    (run [Signal.pageLoad true, Signal.beforeSwap, Signal.pageLoad true]).revertCalls = 1 ∧
    (run [Signal.pageLoad true, Signal.beforeSwap, Signal.pageLoad true]).openCalls = 2 := by
  decide

/-- C4: in the navigation-complete routine the revert-and-clear step
precedes the open step on every invocation (any handle in the slot ends up
reverted), and running the routine twice in immediate succession from any
reachable state yields the same slot shape (ACTIVE/IDLE) and the same
number of live handles as running it once. -/
theorem navComplete_idempotent (sigs : List Signal) (r : Bool) :
    (∀ h, (run sigs).ctx = some h → h ∈ (initAnimations r (run sigs)).revertedIds) ∧
    (initAnimations r (initAnimations r (run sigs))).ctx.isSome
      = (initAnimations r (run sigs)).ctx.isSome ∧
    liveCount (initAnimations r (initAnimations r (run sigs)))
      = liveCount (initAnimations r (run sigs)) := by
  refine ⟨fun h hc => ctx_mem_reverted hc r, ?_, ?_⟩
  · rw [initAnimations_ctx_isSome, initAnimations_ctx_isSome]
  · cases r
    · show liveCount (revertAndClear (revertAndClear (run sigs)))
        = liveCount (revertAndClear (run sigs))
      rw [revertAndClear_idem]
    · have h1 := CoordInv_run sigs
      have h2 := CoordInv_initAnimations h1 true
      rw [liveCount_initAnimations_true h2, liveCount_initAnimations_true h1]

/-- Witness for C4: after one page load, a redundant second and third
navigation-complete leave the slot shape and live count unchanged, and the
previously held handle 0 is reverted. -/
theorem navComplete_idempotent_witness :
    0 ∈ (initAnimations true (run [Signal.pageLoad true])).revertedIds ∧
    (initAnimations true (initAnimations true (run [Signal.pageLoad true]))).ctx.isSome
      = (initAnimations true (run [Signal.pageLoad true])).ctx.isSome ∧
    liveCount (initAnimations true (initAnimations true (run [Signal.pageLoad true])))
      = liveCount (initAnimations true (run [Signal.pageLoad true])) := by
  obtain ⟨h1, h2, h3⟩ := navComplete_idempotent [Signal.pageLoad true] true
  exact ⟨h1 0 (by decide), h2, h3⟩

/-- C5: the revert performed by the navigation-about-to-start handler is
idempotent — running the handler twice in a row equals running it once on
every slot state — and on an empty (null) slot the handler is a no-op, so
reverting an already-reverted or null handle changes nothing. -/
theorem revert_idempotent (s : CoordState) :
    beforeSwapHandler (beforeSwapHandler s) = beforeSwapHandler s ∧
    (s.ctx = none → beforeSwapHandler s = s) :=
  ⟨revertAndClear_idem s, fun h => revertAndClear_of_none h⟩

/-- Witness for C5: at the module-load state (empty slot) the handler is a
no-op and applying it twice equals applying it once. -/
theorem revert_idempotent_witness :
    beforeSwapHandler (beforeSwapHandler CoordState.init) = beforeSwapHandler CoordState.init ∧
    beforeSwapHandler CoordState.init = CoordState.init :=
  ⟨(revert_idempotent CoordState.init).1, (revert_idempotent CoordState.init).2 rfl⟩

/-- C6: a navigation-complete signal on a page where the region root does
not resolve raises no exception (the guard returns normally), performs zero
open calls (the open counter and the opened-handle list are unchanged), and
leaves the slot empty (IDLE). -/
theorem absent_region_safety (s : CoordState) :
    (initAnimationsE NavOutcome.rootAbsent s).2 = false ∧
    (initAnimations false s).openCalls = s.openCalls ∧
    (initAnimations false s).openedIds = s.openedIds ∧
    (initAnimations false s).ctx = none :=
  ⟨rfl, revertAndClear_openCalls s, revertAndClear_openedIds s, revertAndClear_ctx s⟩

/-- C7: in every run of the coordinator — any interleaving of the two
signal handlers with any resolution outcomes — the chronological trace of
registry calls never contains two open-scope calls without an intervening
revert call. -/
theorem never_double_open (sigs : List Signal) :
    noDoubleOpen (run sigs).trace = true :=
  (CoordInv_run sigs).no_double

/-- C8: the navigation-complete handler empties the slot in the cleanup
block, before the root lookup or the new open is attempted; hence in every
execution in which `document.querySelector` or `gsap.context` throws, the
escaped-exception state carries an empty slot, never a stale reverted
handle; the non-throwing outcomes agree with `initAnimations`. -/
theorem slot_cleared_before_lookup (s : CoordState) (o : NavOutcome) :
    (revertAndClear s).ctx = none ∧
    ((initAnimationsE o s).2 = true → (initAnimationsE o s).1.ctx = none) ∧
    (initAnimationsE NavOutcome.ok s).1 = initAnimations true s ∧
    (initAnimationsE NavOutcome.rootAbsent s).1 = initAnimations false s := by
  refine ⟨revertAndClear_ctx s, ?_, rfl, rfl⟩
  cases o with
  | lookupThrows => intro _; exact revertAndClear_ctx s
  | rootAbsent => intro h; cases h
  | openThrows => intro _; exact revertAndClear_ctx s
  | ok => intro h; cases h

/-- Witness for C8: with a live handle in the slot, a root lookup that
throws still leaves the slot empty. -/
theorem slot_cleared_before_lookup_witness :
    (initAnimationsE NavOutcome.lookupThrows (run [Signal.pageLoad true])).1.ctx = none :=
  (slot_cleared_before_lookup (run [Signal.pageLoad true])
    NavOutcome.lookupThrows).2.1 rfl

/-- C9: if neither the coordinator nor the animation library ever runs (the
state stays at module load, with no scope ever opened), a region whose
hidden-until-animated states are established only inside open scopes — no
static presentation rule hides it — renders visible and interactable. -/
theorem fallback_visibility (p : RegionPresentation) (h : conforming p) :
    visibleUnder p CoordState.init = true := by
  have hlive : live CoordState.init = [] := rfl
  rw [conforming] at h
  simp [visibleUnder, h, hlive]

/-- Witness for C9: the concrete conforming region is visible when the
coordinator never runs. -/
theorem fallback_visibility_witness :
    conforming allVisibleRegion ∧
    visibleUnder allVisibleRegion CoordState.init = true :=
  ⟨rfl, fallback_visibility allVisibleRegion rfl⟩

/-- C10 counterexample: the second exported brand record does not supply
geo-coordinates or schema metadata — its latitude, longitude and schemaName
fields are absent — so the claim that each exported record supplies name,
contact info, geo-coordinates and schema metadata fails on it. -/
theorem brand_identity_counterexample :
    suppliesIdentityFields mobileTiresBrandV2 = false := by decide

/-- C10 amended: the brand configuration module is pure data (its embedding
is a plain value with no effects); both records conform to the BrandConfig
shape; the first record supplies name, contact info, geo-coordinates and
schema metadata, while the second supplies name and contact info but omits
the optional geo-coordinate and schema-name fields. -/
theorem brand_identity_fields :
    suppliesIdentityFields mobileTiresBrand = true ∧
    mobileTiresBrandV2.name.isEmpty = false ∧
    mobileTiresBrandV2.phone.isEmpty = false ∧
    mobileTiresBrandV2.email.isEmpty = false ∧
    mobileTiresBrandV2.address.isEmpty = false ∧
    mobileTiresBrandV2.latitude = none ∧
    mobileTiresBrandV2.longitude = none ∧
    mobileTiresBrandV2.schemaName = none := by
  decide
